import Mathlib

/-!
Shallow embedding of the chat backend (src/main.py and src/schemas.py of the
"Patrick Somerville — The Infinite Scroll" repository).

Pure string manipulation is modelled over ASCII (the only characters the
constants of the program use); the implicit global random source of Python is made
explicit: the uniform draw of `random.random()` becomes a rational argument
`d`, and each `random.choice` over a fixed pool becomes an index into the
pool.  The document store is modelled by an outcome value: either every
store step succeeded and we see the collection contents at query time, or
some step raised and the handler observed the wall clock.
-/

namespace InfiniteScroll

/-- Model of the whitespace set of Python `str.strip` (ASCII part). -/
def isPySpace (c : Char) : Bool :=
  c = ' ' || c = '\t' || c = '\n' || c = '\r' || c = '\x0b' || c = '\x0c'

/-- Model of Python `str.strip()`: drop leading and trailing whitespace. -/
def pyStrip (s : String) : String :=
  String.mk (((s.data.dropWhile isPySpace).reverse.dropWhile isPySpace).reverse)

/-- Model of Python `str.lower` (ASCII letters, which is all that the
constants of the program contain). -/
def pyLower (s : String) : String :=
  String.mk (s.data.map Char.toLower)

/-- Worker for `pyTitle`: the boolean records whether the previous character
was a (cased) letter, as in the CPython `str.title` method. -/
def titleCore : Bool → List Char → List Char
  | _, [] => []
  | prevAlpha, c :: cs =>
    (if c.isAlpha then (if prevAlpha then c.toLower else c.toUpper) else c)
      :: titleCore c.isAlpha cs

/-- Model of Python `str.title()` (ASCII): each letter run starts upper-cased,
the rest of the run is lower-cased. -/
def pyTitle (s : String) : String :=
  String.mk (titleCore false s.data)

/-- Python `x or dflt` on an optional string: `None` and `""` are falsy. -/
def pyOrStr (v : Option String) (dflt : String) : String :=
  match v with
  | none => dflt
  | some s => if s = "" then dflt else s

/-- Python `x or 0.0` on an optional float (rationals model the floats used
here): `None` and `0.0` are falsy. -/
def pyOrQ (v : Option ℚ) (dflt : ℚ) : ℚ :=
  match v with
  | none => dflt
  | some x => if x = 0 then dflt else x

/-- Python `x or None` on an optional string: `""` collapses to `None`. -/
def pyOrNone (v : Option String) : Option String :=
  match v with
  | none => none
  | some s => if s = "" then none else some s

/-- schemas.py: ChatMessage — the chat persistence record. -/
structure ChatMessage where
  username : String
  content : String
  season : String
  depth : ℚ
  thread_id : Option String
  deriving DecidableEq

/-- main.py: ChatRequest — body of POST /api/chat. -/
structure ChatRequest where
  message : String
  season : Option String := none
  depth : Option ℚ := none
  username : Option String := none
  thread_id : Option String := none
  deriving DecidableEq

/-- main.py: ChatResponse.  The endpoint always fills `season`, so it is a
plain string here (the wire schema merely marks it optional). -/
structure ChatResponse where
  reply : String
  slip : Bool
  season : String
  page_number : ℕ
  deriving DecidableEq

/-- main.py line 85: the fixed pool of generic surface lines. -/
def SURFACE_VOICE : List String :=
  [ "Thanks for stopping by. What can I show you?"
  , "Happy you\x27re here. Which book are you curious about?"
  , "Welcome. We can wander the seasons together."
  , "I can open a page, or we can just talk about stories."
  ]

/-- main.py line 92: the fixed pool of whisper lines. -/
def SUBSURFACE_WHISPERS : List String :=
  [ "This river feels familiar. I used to stand near one."
  , "Winter makes it harder to pretend."
  , "If you hear a page echo twice, don’t worry. That’s just me."
  , "The other Patrick is… doing fine. I think."
  ]

/-- main.py line 99: season → tempo mapping. -/
def SEASON_TEMPOS : List (String × String) :=
  [ ("spring", "warm and steady")
  , ("summer", "expansive and shimmering")
  , ("autumn", "playful and cosmic")
  , ("winter", "quiet and precise")
  ]

/-- main.py line 125: the fixed greeting line (exact source string,
typographic apostrophes included). -/
def garyGreeting : String := "Hello. I’m Gary. I’ll guide you."

/-- main.py line 124: the greeting trigger set. -/
def GREETING_TRIGGERS : List String := ["hi", "hello", "hey"]

/-- main.py line 107: `maybe_slip`.  The handler always passes the normalized
season string; the uniform draw `random.random()` is the explicit argument
`d`. -/
def maybe_slip (season : String) (d : ℚ) : Bool :=
  let base : ℚ := if season = "winter" then mkRat 5 100 else mkRat 2 100
  decide (d < base)

/-- Outcome of the persistence block (main.py lines 136-150): `ok docs` means
`create_document` and any query succeeded and `docs` is the content of the
"chatmessage" collection at query time; `fail t` means some step raised and
the handler read wall-clock second `t` in the `except` branch. -/
inductive StoreOutcome where
  | ok (docs : List ChatMessage)
  | fail (t : ℕ)
  deriving DecidableEq

/-- Model of `get_documents("chatmessage", {"thread_id": tid})`: the documents
of the collection whose `thread_id` equals the filter value. -/
def get_documents (docs : List ChatMessage) (tid : String) : List ChatMessage :=
  docs.filter (fun m => m.thread_id == some tid)

/-- main.py line 117: `(req.season or "spring").lower()`. -/
def seasonOf (req : ChatRequest) : String :=
  pyLower (pyOrStr req.season "spring")

/-- main.py line 118: `SEASON_TEMPOS.get(season, "warm and steady")`. -/
def tempoFor (season : String) : String :=
  (SEASON_TEMPOS.lookup season).getD "warm and steady"

/-- main.py lines 124-127: the surface line; `si` is the index drawn by
`random.choice(SURFACE_VOICE)`. -/
def composeSurface (message : String) (si : Fin SURFACE_VOICE.length) : String :=
  if pyLower (pyStrip message) ∈ GREETING_TRIGGERS then garyGreeting
  else SURFACE_VOICE.get si

/-- main.py lines 137-143: the ChatMessage record handed to
`create_document("chatmessage", doc)`. -/
def chatDocument (req : ChatRequest) : ChatMessage :=
  { username := pyOrStr req.username "visitor"
  , content := req.message
  , season := seasonOf req
  , depth := pyOrQ req.depth 0
  , thread_id := pyOrNone req.thread_id }

/-- main.py lines 116-152: the POST /api/chat handler.  `d` is the uniform
draw of `maybe_slip`, `si`/`wi` are the indices drawn by `random.choice` on
the surface and whisper pools, and `store` is the outcome of the persistence
block.  On `fail t`, `page_number = int(time.time() % 7) + 1` with `t` the
wall-clock seconds. -/
def chat (req : ChatRequest) (d : ℚ) (si : Fin SURFACE_VOICE.length)
    (wi : Fin SUBSURFACE_WHISPERS.length) (store : StoreOutcome) : ChatResponse :=
  let season := seasonOf req
  let tempo := tempoFor season
  let slip := maybe_slip season d
  let surface := composeSurface req.message si
  let reply0 := surface ++ "\n\nIn " ++ pyTitle season ++ ", my pace is " ++ tempo ++ "."
  let reply := if slip then reply0 ++ "\n\n" ++ SUBSURFACE_WHISPERS.get wi else reply0
  let page_number :=
    match store with
    | .ok docs =>
      let msgs :=
        match req.thread_id with
        | some tid => if tid = "" then [] else get_documents docs tid
        | none => []
      msgs.length + 1
    | .fail t => t % 7 + 1
  { reply := reply, slip := slip, season := season, page_number := page_number }

example :
    chat { message := "  Hello " , season := some "WINTER" } 1
      ⟨0, by decide⟩ ⟨0, by decide⟩ (.ok []) =
    { reply := "Hello. I’m Gary. I’ll guide you.\n\nIn Winter, my pace is quiet and precise."
    , slip := false, season := "winter", page_number := 1 } := by
  decide

/-! ## Supporting lemmas -/

theorem mkRat_five_hundredths : mkRat 5 100 = (5 : ℚ) / 100 := by
  rw [Rat.mkRat_eq_divInt, Rat.divInt_eq_div]; norm_num

theorem mkRat_two_hundredths : mkRat 2 100 = (2 : ℚ) / 100 := by
  rw [Rat.mkRat_eq_divInt, Rat.divInt_eq_div]; norm_num

theorem toNat_charOfNat_of_lt (n : ℕ) (h : n < 0xd800) : (Char.ofNat n).toNat = n := by
  have hv : n.isValidChar := Or.inl h
  rw [Char.ofNat, dif_pos hv]
  rfl

theorem toLower_toNat (c : Char) :
    c.toLower.toNat = if c.toNat ≥ 65 ∧ c.toNat ≤ 90 then c.toNat + 32 else c.toNat := by
  rw [Char.toLower]
  split
  · exact toNat_charOfNat_of_lt _ (by omega)
  · rfl

theorem toLower_eq_self (c : Char) (h : ¬(c.toNat ≥ 65 ∧ c.toNat ≤ 90)) :
    c.toLower = c := by
  rw [Char.toLower, if_neg h]

theorem toLower_idem (c : Char) : c.toLower.toLower = c.toLower := by
  by_cases h : c.toNat ≥ 65 ∧ c.toNat ≤ 90
  · refine toLower_eq_self _ ?_
    rw [toLower_toNat, if_pos h]
    omega
  · rw [toLower_eq_self c h]
    exact toLower_eq_self c h

theorem pyLower_idem (s : String) : pyLower (pyLower s) = pyLower s := by
  unfold pyLower
  rw [show (String.mk (s.data.map Char.toLower)).data = s.data.map Char.toLower from rfl]
  rw [List.map_map]
  exact congrArg String.mk (List.map_congr_left fun c _ => toLower_idem c)

theorem seasonOf_some (req : ChatRequest) (s : String) (hs : req.season = some s)
    (hne : s ≠ "") : seasonOf req = pyLower s := by
  rw [seasonOf, hs, pyOrStr, if_neg hne]

theorem chat_reply_unfold (req : ChatRequest) (d : ℚ) (si : Fin SURFACE_VOICE.length)
    (wi : Fin SUBSURFACE_WHISPERS.length) (store : StoreOutcome) :
    (chat req d si wi store).reply =
      composeSurface req.message si ++ "\n\nIn " ++ pyTitle (seasonOf req) ++
        ", my pace is " ++ tempoFor (seasonOf req) ++ "." ++
        (if maybe_slip (seasonOf req) d then "\n\n" ++ SUBSURFACE_WHISPERS.get wi else "") := by
  show (if maybe_slip (seasonOf req) d
        then composeSurface req.message si ++ "\n\nIn " ++ pyTitle (seasonOf req) ++
          ", my pace is " ++ tempoFor (seasonOf req) ++ "." ++ "\n\n" ++
          SUBSURFACE_WHISPERS.get wi
        else composeSurface req.message si ++ "\n\nIn " ++ pyTitle (seasonOf req) ++
          ", my pace is " ++ tempoFor (seasonOf req) ++ ".") = _
  cases hb : maybe_slip (seasonOf req) d
  · simp
  · simp only [if_true, decide_True, ite_true]
    simp only [String.append_assoc]

/-! ## Claims -/

/-- C1: the surface line of the reply is the fixed greeting exactly when the
trimmed, lower-cased message is one of "hi", "hello", "hey"; otherwise it is
drawn from the fixed pool of at least 4 generic greeting/prompt lines. -/
theorem chat_surface_line (req : ChatRequest) (d : ℚ) (si : Fin SURFACE_VOICE.length)
    (wi : Fin SUBSURFACE_WHISPERS.length) (store : StoreOutcome) :
    (∃ rest, (chat req d si wi store).reply = composeSurface req.message si ++ rest) ∧
    (if pyLower (pyStrip req.message) ∈ GREETING_TRIGGERS
      then composeSurface req.message si = garyGreeting
      else composeSurface req.message si ∈ SURFACE_VOICE) ∧
    4 ≤ SURFACE_VOICE.length := by
  refine ⟨?_, ?_, by decide⟩
  · refine ⟨"\n\nIn " ++ (pyTitle (seasonOf req) ++ (", my pace is " ++
      (tempoFor (seasonOf req) ++ ("." ++
        (if maybe_slip (seasonOf req) d then "\n\n" ++ SUBSURFACE_WHISPERS.get wi else ""))))), ?_⟩
    rw [chat_reply_unfold]
    simp only [String.append_assoc]
  · by_cases hg : pyLower (pyStrip req.message) ∈ GREETING_TRIGGERS
    · rw [if_pos hg, composeSurface, if_pos hg]
    · rw [if_neg hg, composeSurface, if_neg hg]
      exact List.get_mem _ si.1 si.2

/-- C3: the reply is the surface line, a blank line, the sentence
"In {Season capitalized}, my pace is {tempo}."; a blank line plus a line from
the fixed pool of at least 4 whisper lines is appended exactly when the slip
flag of the response is true. -/
theorem chat_reply_composition (req : ChatRequest) (d : ℚ) (si : Fin SURFACE_VOICE.length)
    (wi : Fin SUBSURFACE_WHISPERS.length) (store : StoreOutcome) :
    (chat req d si wi store).reply =
      composeSurface req.message si ++ "\n\nIn " ++ pyTitle (seasonOf req) ++
        ", my pace is " ++ tempoFor (seasonOf req) ++ "." ++
        (if (chat req d si wi store).slip then "\n\n" ++ SUBSURFACE_WHISPERS.get wi else "") ∧
    SUBSURFACE_WHISPERS.get wi ∈ SUBSURFACE_WHISPERS ∧
    4 ≤ SUBSURFACE_WHISPERS.length := by
  exact ⟨chat_reply_unfold req d si wi store, List.get_mem _ wi.1 wi.2, by decide⟩

/-- C2: for every chat request the slip flag is a single uniform draw on
[0,1) (modelled as the explicit input `d`) compared against a threshold that
is exactly 0.05 when the normalized (lower-cased, defaulted) season is
"winter" and exactly 0.02 otherwise: `slip = (d < threshold)`. -/
theorem chat_slip_threshold (req : ChatRequest) (d : ℚ) (si : Fin SURFACE_VOICE.length)
    (wi : Fin SUBSURFACE_WHISPERS.length) (store : StoreOutcome) :
    (chat req d si wi store).slip =
      decide (d < if pyLower (pyOrStr req.season "spring") = "winter"
                  then (5 : ℚ) / 100 else (2 : ℚ) / 100) := by
  show maybe_slip (seasonOf req) d = _
  rw [maybe_slip, seasonOf]
  rw [mkRat_five_hundredths, mkRat_two_hundredths]

/-- C6: for every chat request and every outcome of the persistence step
(create and query succeeded, or any step failed), the page_number of the
response is at least 1. -/
theorem chat_page_number_ge_one (req : ChatRequest) (d : ℚ) (si : Fin SURFACE_VOICE.length)
    (wi : Fin SUBSURFACE_WHISPERS.length) (store : StoreOutcome) :
    1 ≤ (chat req d si wi store).page_number := by
  cases store with
  | ok docs =>
    show 1 ≤ _ + 1
    omega
  | fail t =>
    show 1 ≤ t % 7 + 1
    omega

/-- C8: if any persistence or query step fails, the failure is swallowed: the
response still carries exactly the reply, slip and season it would carry with
a working store, and its page_number is (unix time mod 7) + 1, which lies in
[1,7]. -/
theorem chat_store_failure_degraded (req : ChatRequest) (d : ℚ)
    (si : Fin SURFACE_VOICE.length) (wi : Fin SUBSURFACE_WHISPERS.length)
    (docs : List ChatMessage) (t : ℕ) :
    (chat req d si wi (.fail t)).reply = (chat req d si wi (.ok docs)).reply ∧
    (chat req d si wi (.fail t)).slip = (chat req d si wi (.ok docs)).slip ∧
    (chat req d si wi (.fail t)).season = (chat req d si wi (.ok docs)).season ∧
    (chat req d si wi (.fail t)).page_number = t % 7 + 1 ∧
    1 ≤ (chat req d si wi (.fail t)).page_number ∧
    (chat req d si wi (.fail t)).page_number ≤ 7 := by
  refine ⟨rfl, rfl, rfl, rfl, ?_, ?_⟩
  · show 1 ≤ t % 7 + 1
    omega
  · show t % 7 + 1 ≤ 7
    omega

/-- C4: for a non-empty supplied season (an empty one counts as absent, as
the code treats falsy values), the response echoes the season lower-cased;
the tempo placed in the reply is the mapping value for recognized seasons and
"warm and steady" otherwise; season "WINTER" yields season "winter", tempo
"quiet and precise" and the winter slip threshold. -/
theorem chat_season_echo_and_tempo (req : ChatRequest) (d : ℚ)
    (si : Fin SURFACE_VOICE.length) (wi : Fin SUBSURFACE_WHISPERS.length)
    (store : StoreOutcome) (s : String) (hs : req.season = some s) (hne : s ≠ "") :
    (chat req d si wi store).season = pyLower s ∧
    (chat req d si wi store).reply =
      composeSurface req.message si ++ "\n\nIn " ++ pyTitle (pyLower s) ++
        ", my pace is " ++ tempoFor (pyLower s) ++ "." ++
        (if (chat req d si wi store).slip then "\n\n" ++ SUBSURFACE_WHISPERS.get wi else "") ∧
    (SEASON_TEMPOS.lookup (pyLower s) = none → tempoFor (pyLower s) = "warm and steady") ∧
    (∀ tp, SEASON_TEMPOS.lookup (pyLower s) = some tp → tempoFor (pyLower s) = tp) ∧
    (pyLower s = "winter" →
      (chat req d si wi store).season = "winter" ∧
      tempoFor (pyLower s) = "quiet and precise" ∧
      (chat req d si wi store).slip = decide (d < (5 : ℚ) / 100)) := by
  have hsea : seasonOf req = pyLower s := seasonOf_some req s hs hne
  refine ⟨hsea, ?_, ?_, ?_, ?_⟩
  · rw [← hsea]
    exact chat_reply_unfold req d si wi store
  · intro h
    rw [tempoFor, h]
    rfl
  · intro tp h
    rw [tempoFor, h]
    rfl
  · intro hw
    refine ⟨hsea.trans hw, ?_, ?_⟩
    · rw [hw]
      decide
    · show maybe_slip (seasonOf req) d = _
      simp [maybe_slip, hsea, hw, mkRat_five_hundredths]

theorem chat_season_echo_and_tempo_witness :
    (chat { message := "x", season := some "Blorp" } 1 ⟨0, by decide⟩ ⟨0, by decide⟩
        (.ok [])).season = "blorp" ∧
    tempoFor "blorp" = "warm and steady" ∧
    (chat { message := "x", season := some "WINTER" } 1 ⟨0, by decide⟩ ⟨0, by decide⟩
        (.ok [])).season = "winter" ∧
    tempoFor "winter" = "quiet and precise" := by
  have h1 := chat_season_echo_and_tempo { message := "x", season := some "Blorp" } 1
    ⟨0, by decide⟩ ⟨0, by decide⟩ (.ok []) "Blorp" rfl (by decide)
  have h2 := chat_season_echo_and_tempo { message := "x", season := some "WINTER" } 1
    ⟨0, by decide⟩ ⟨0, by decide⟩ (.ok []) "WINTER" rfl (by decide)
  have e1 : pyLower "Blorp" = "blorp" := by decide
  have e2 : pyLower "WINTER" = "winter" := by decide
  refine ⟨h1.1.trans e1, ?_, h2.1.trans e2, ?_⟩
  · have h := h1.2.2.1 (by decide)
    rwa [e1] at h
  · have h := (h2.2.2.2.2 e2).2.1
    rwa [e2] at h

/-- C5 counterexample: an unrecognized non-empty season is echoed in the
response, not defaulted to "spring", refuting the claim that the season
defaults to "spring" when unrecognized. -/
theorem chat_season_default_counterexample :
    SEASON_TEMPOS.lookup "blorp" = none ∧
    (chat { message := "x", season := some "blorp" } 1 ⟨0, by decide⟩ ⟨0, by decide⟩
        (.ok [])).season = "blorp" ∧
    "blorp" ≠ "spring" := by decide

/-- C5 (amended): the season of every response is lower-cased; it defaults to
"spring" when the request season is absent or empty; an unrecognized
non-empty season is echoed lower-cased (only the tempo falls back). -/
theorem chat_season_lowercased_and_default (req : ChatRequest) (d : ℚ)
    (si : Fin SURFACE_VOICE.length) (wi : Fin SUBSURFACE_WHISPERS.length)
    (store : StoreOutcome) :
    pyLower (chat req d si wi store).season = (chat req d si wi store).season ∧
    (req.season = none ∨ req.season = some "" →
      (chat req d si wi store).season = "spring") ∧
    (∀ s, req.season = some s → s ≠ "" → (chat req d si wi store).season = pyLower s) := by
  refine ⟨pyLower_idem _, ?_, fun s hs hne => seasonOf_some req s hs hne⟩
  rintro (h | h) <;>
    · show seasonOf req = _
      rw [seasonOf, h]
      decide

theorem chat_season_lowercased_and_default_witness :
    (chat { message := "x", season := some "" } 1 ⟨0, by decide⟩ ⟨0, by decide⟩
        (.ok [])).season = "spring" :=
  (chat_season_lowercased_and_default { message := "x", season := some "" } 1
    ⟨0, by decide⟩ ⟨0, by decide⟩ (.ok [])).2.1 (Or.inr rfl)

theorem chatDocument_thread_id_ne_empty (req : ChatRequest) :
    (chatDocument req).thread_id ≠ some "" := by
  show pyOrNone req.thread_id ≠ some ""
  cases req.thread_id with
  | none => simp [pyOrNone]
  | some t => by_cases ht : t = "" <;> simp [pyOrNone, ht]

/-- C7: when the create succeeds, page_number equals the number of documents
of the "chatmessage" collection with the matching thread_id plus 1 when a
thread_id was supplied, and 1 when none was.  The hypothesis on `docs` (no
stored document carries thread id `some ""`) is an invariant of every
document this system writes, see `chatDocument_thread_id_ne_empty`. -/
theorem chat_page_number_from_thread (req : ChatRequest) (d : ℚ)
    (si : Fin SURFACE_VOICE.length) (wi : Fin SUBSURFACE_WHISPERS.length)
    (docs : List ChatMessage) (hdocs : ∀ m ∈ docs, m.thread_id ≠ some "") :
    (req.thread_id = none → (chat req d si wi (.ok docs)).page_number = 1) ∧
    (∀ tid, req.thread_id = some tid →
      (chat req d si wi (.ok docs)).page_number = (get_documents docs tid).length + 1) := by
  obtain ⟨msg, sea, dep, usr, tid⟩ := req
  constructor
  · rintro rfl
    rfl
  · rintro t rfl
    by_cases ht : t = ""
    · subst ht
      have hnil : get_documents docs "" = [] := by
        rw [get_documents, List.filter_eq_nil_iff]
        intro m hm
        simpa using hdocs m hm
      show (if ("" : String) = "" then ([] : List ChatMessage)
            else get_documents docs "").length + 1 = _
      rw [hnil, if_pos rfl]
    · show (if t = "" then ([] : List ChatMessage)
            else get_documents docs t).length + 1 = _
      rw [if_neg ht]

theorem chat_page_number_from_thread_witness :
    (chat { message := "x", thread_id := some "t1" } 1 ⟨0, by decide⟩ ⟨0, by decide⟩
        (.ok [ { username := "visitor", content := "hi", season := "spring"
               , depth := 0, thread_id := some "t1" }
             , { username := "visitor", content := "yo", season := "spring"
               , depth := 0, thread_id := some "t2" } ])).page_number = 2 := by
  have h := chat_page_number_from_thread { message := "x", thread_id := some "t1" } 1
    ⟨0, by decide⟩ ⟨0, by decide⟩
    [ { username := "visitor", content := "hi", season := "spring"
      , depth := 0, thread_id := some "t1" }
    , { username := "visitor", content := "yo", season := "spring"
      , depth := 0, thread_id := some "t2" } ]
    (by decide)
  exact (h.2 "t1" rfl).trans (by decide)

/-- C9: the ChatMessage handed to the store has username from the request
("visitor" when absent, with empty treated as absent), the raw message as
content, the normalized season, thread_id none when absent, and the request
depth (a float in [0,1] per the schema description) defaulting to 0. -/
theorem chatDocument_fields (req : ChatRequest)
    (hdepth : ∀ x, req.depth = some x → 0 ≤ x ∧ x ≤ 1) :
    (req.username = none → (chatDocument req).username = "visitor") ∧
    (∀ u, req.username = some u → u ≠ "" → (chatDocument req).username = u) ∧
    (chatDocument req).content = req.message ∧
    (chatDocument req).season = seasonOf req ∧
    (req.thread_id = none → (chatDocument req).thread_id = none) ∧
    (chatDocument req).depth = req.depth.getD 0 ∧
    0 ≤ (chatDocument req).depth ∧ (chatDocument req).depth ≤ 1 := by
  obtain ⟨msg, sea, dep, usr, tid⟩ := req
  refine ⟨?_, ?_, rfl, rfl, ?_, ?_, ?_, ?_⟩
  · rintro rfl
    rfl
  · rintro u rfl hne
    show (if u = "" then "visitor" else u) = u
    rw [if_neg hne]
  · rintro rfl
    rfl
  · show pyOrQ dep 0 = dep.getD 0
    cases dep with
    | none => rfl
    | some x =>
      show (if x = 0 then 0 else x) = x
      by_cases hx : x = 0
      · rw [if_pos hx, hx]
      · rw [if_neg hx]
  · show 0 ≤ pyOrQ dep 0
    cases dep with
    | none => exact le_refl 0
    | some x =>
      show 0 ≤ (if x = 0 then 0 else x)
      by_cases hx : x = 0
      · rw [if_pos hx]
      · rw [if_neg hx]
        exact (hdepth x rfl).1
  · show pyOrQ dep 0 ≤ 1
    cases dep with
    | none => norm_num [pyOrQ]
    | some x =>
      show (if x = 0 then 0 else x) ≤ 1
      by_cases hx : x = 0
      · rw [if_pos hx]
        norm_num
      · rw [if_neg hx]
        exact (hdepth x rfl).2

theorem chatDocument_fields_witness :
    (chatDocument { message := "m", season := some "WINTER", depth := some 1
                  , username := some "pat", thread_id := some "t1" }).username = "pat" ∧
    (chatDocument { message := "m", season := some "WINTER", depth := some 1
                  , username := some "pat", thread_id := some "t1" }).depth = 1 := by
  have h := chatDocument_fields
    { message := "m", season := some "WINTER", depth := some 1
    , username := some "pat", thread_id := some "t1" }
    (by intro x hx
        injection hx with hx
        subst hx
        norm_num)
  exact ⟨h.2.1 "pat" rfl (by decide), h.2.2.2.2.2.1.trans rfl⟩

/-- C10: empty strings in the optional fields behave exactly like absent
values: season "" yields response season "spring", username "" stores
"visitor", thread_id "" stores none and (on successful create) skips the
thread query, so page_number is 1. -/
theorem chat_empty_string_fields (req : ChatRequest) (d : ℚ)
    (si : Fin SURFACE_VOICE.length) (wi : Fin SUBSURFACE_WHISPERS.length)
    (docs : List ChatMessage) :
    (req.season = some "" → (chat req d si wi (.ok docs)).season = "spring") ∧
    (req.username = some "" → (chatDocument req).username = "visitor") ∧
    (req.thread_id = some "" →
      (chatDocument req).thread_id = none ∧
      (chat req d si wi (.ok docs)).page_number = 1) := by
  obtain ⟨msg, sea, dep, usr, tid⟩ := req
  refine ⟨?_, ?_, ?_⟩
  · rintro rfl
    show pyLower (pyOrStr (some "") "spring") = "spring"
    decide
  · rintro rfl
    show pyOrStr (some "") "visitor" = "visitor"
    decide
  · rintro rfl
    refine ⟨?_, ?_⟩
    · show pyOrNone (some "") = none
      decide
    · show (if ("" : String) = "" then ([] : List ChatMessage)
            else get_documents docs "").length + 1 = 1
      rw [if_pos rfl]
      rfl

theorem chat_empty_string_fields_witness :
    (chat { message := "x", season := some "", username := some "", thread_id := some "" }
        1 ⟨0, by decide⟩ ⟨0, by decide⟩ (.ok [])).season = "spring" ∧
    (chatDocument { message := "x", season := some "", username := some ""
                  , thread_id := some "" }).username = "visitor" ∧
    (chatDocument { message := "x", season := some "", username := some ""
                  , thread_id := some "" }).thread_id = none ∧
    (chat { message := "x", season := some "", username := some "", thread_id := some "" }
        1 ⟨0, by decide⟩ ⟨0, by decide⟩ (.ok [])).page_number = 1 := by
  have h := chat_empty_string_fields
    { message := "x", season := some "", username := some "", thread_id := some "" }
    1 ⟨0, by decide⟩ ⟨0, by decide⟩ []
  exact ⟨h.1 rfl, h.2.1 rfl, (h.2.2 rfl).1, (h.2.2 rfl).2⟩

end InfiniteScroll
